import Mathlib

/-!
Shallow embedding of the UCQCF Phase-1 boot-stage security pipeline
(src/boot/early_init.c together with the provider interface implemented by
src/arch/x86_64/boot_probe.c, and the topology contract of
src/topology/topology_contract.h).

Machine integers (`uint32_t`, `uint64_t`) are modelled as `Nat`; the embedded
code performs no arithmetic on them (only comparisons and assignments), so no
overflow reduction is needed.  C structs become Lean structures; the fixed
`errors[32]` array with its `error_count` is modelled as the occupied prefix,
a `List` whose length the code keeps `≤ 32`.  The architecture probe
back-end is abstracted, exactly as the code does through its function-pointer
/ weak-symbol seam, into a `ProbeProvider` record holding the response of
every probe operation; a probe that writes through a pointer and returns a
success flag contributes both the written value and the flag.
-/

/-- CPU identity record (`cpu_info_t`): vendor enum, family, model, stepping,
brand string (modelled as its byte sequence) and a validity flag. -/
structure CpuInfo where
  vendor : Nat
  family : Nat
  model : Nat
  stepping : Nat
  brand_string : List Nat
  valid : Bool
deriving DecidableEq

/-- One detected cache level (`cache_info_t` as written by
`boot_probe_cache_topology`). -/
structure CacheInfo where
  level : Nat
  size_kb : Nat
  line_size : Nat
  ways : Nat
  shared : Bool
  inclusive : Bool
  valid : Bool
deriving DecidableEq

/-- Cache hierarchy record (`cache_topology_t`): detected levels plus the
`level_count` the validator inspects. -/
structure CacheTopology where
  levels : List CacheInfo
  level_count : Nat
deriving DecidableEq

/-- Constant-time instruction support flags (`constant_time_support_t`). -/
structure ConstantTimeSupport where
  aes_ni : Bool
  rdrand : Bool
  rdseed : Bool
  constant_time_mul : Bool
  constant_time_cmp : Bool
  valid : Bool
deriving DecidableEq

/-- Cache-control capability flags (`cache_control_t`). -/
structure CacheControl where
  clflush : Bool
  clflushopt : Bool
  clwb : Bool
  cat : Bool
  cdp : Bool
  valid : Bool
deriving DecidableEq

/-- Memory-protection feature flags (`memory_protection_t`). -/
structure MemoryProtection where
  nx : Bool
  smep : Bool
  smap : Bool
  pku : Bool
  tme : Bool
  valid : Bool
deriving DecidableEq

/-- Side-channel mitigation flags (`side_channel_mitigation_t`). -/
structure SideChannelMitigation where
  ibrs : Bool
  stibp : Bool
  ssbd : Bool
  md_clear : Bool
  valid : Bool
deriving DecidableEq

/-- The boot fact record (`boot_facts_t`): every field read or written by
`src/boot/early_init.c`. -/
structure BootFacts where
  probed : Bool
  validated : Bool
  sealed : Bool
  cpu_info : CpuInfo
  cache_topology : CacheTopology
  cpu_count : Nat
  numa_nodes : Nat
  smt_enabled : Bool
  threads_per_core : Nat
  constant_time : ConstantTimeSupport
  constant_time_supported : Bool
  cache_control : CacheControl
  cache_partitioning_supported : Bool
  memory_protection : MemoryProtection
  memory_encryption_supported : Bool
  side_channel_mitigation : SideChannelMitigation
  side_channel_mitigations_available : Bool
  trng_available : Bool
  total_memory_mb : Nat
  uefi_boot : Bool
  secure_boot_enabled : Bool
deriving DecidableEq

/-- The all-zero boot fact record produced by `memset(facts, 0, sizeof *facts)`
in `boot_init`: every integer 0, every flag false, the brand string all
zero bytes (represented by the empty byte sequence). -/
def bootFactsZero : BootFacts where
  probed := false
  validated := false
  sealed := false
  cpu_info := ⟨0, 0, 0, 0, [], false⟩
  cache_topology := ⟨[], 0⟩
  cpu_count := 0
  numa_nodes := 0
  smt_enabled := false
  threads_per_core := 0
  constant_time := ⟨false, false, false, false, false, false⟩
  constant_time_supported := false
  cache_control := ⟨false, false, false, false, false, false⟩
  cache_partitioning_supported := false
  memory_protection := ⟨false, false, false, false, false, false⟩
  memory_encryption_supported := false
  side_channel_mitigation := ⟨false, false, false, false, false⟩
  side_channel_mitigations_available := false
  trng_available := false
  total_memory_mb := 0
  uefi_boot := false
  secure_boot_enabled := false

/-- Embedding of `boot_init` (src/boot/early_init.c:29-35): unconditionally zeroes the whole
record and clears the three lifecycle flags, whatever the previous contents
were — there is no check of `sealed`. -/
def boot_init (_facts : BootFacts) : BootFacts := bootFactsZero

/-- Responses of the architecture probe back-end for one run of `boot_probe`.
Each probe that fills a struct through a pointer and returns a success flag
is represented by the flag together with the struct contents it leaves
behind; value-returning probes are represented by their value. -/
structure ProbeProvider where
  cpu_info_ok : Bool
  cpu_info_result : CpuInfo
  cache_topology_ok : Bool
  cache_topology_result : CacheTopology
  cpu_count : Nat
  numa_node_count : Nat
  smt_enabled : Bool
  threads_per_core : Nat
  constant_time_ok : Bool
  constant_time_result : ConstantTimeSupport
  cache_control_ok : Bool
  cache_control_result : CacheControl
  memory_protection_ok : Bool
  memory_protection_result : MemoryProtection
  side_channel_ok : Bool
  side_channel_result : SideChannelMitigation
  trng_available : Bool
  total_memory_mb : Nat
  uefi_boot : Bool
  secure_boot_enabled : Bool
deriving DecidableEq

/-- Embedding of `boot_probe` (src/boot/early_init.c:41-183): refuses a sealed record, then
runs the fixed twelve-step sequence.  Steps 1 and 2 and the `cpu_count = 0`
check of step 3 are fatal (return `false` immediately); the NUMA count 0 of
step 4 is coerced to 1; the four feature probes of steps 6-9 degrade on
failure to `valid := false` on the struct the probe left behind; the
aggregate roll-up flags are recomputed exactly as in the source; on
completion `probed` is set and the call returns `true`. -/
def boot_probe (facts : BootFacts) (p : ProbeProvider) : Bool × BootFacts :=
  if facts.sealed = true then (false, facts)
  else
    let f := { facts with cpu_info := p.cpu_info_result }
    if p.cpu_info_ok = false then (false, f)
    else
      let f := { f with cache_topology := p.cache_topology_result }
      if p.cache_topology_ok = false then (false, f)
      else
        let f := { f with cpu_count := p.cpu_count }
        if f.cpu_count = 0 then (false, f)
        else
          let f := { f with numa_nodes :=
            if p.numa_node_count = 0 then 1 else p.numa_node_count }
          let f := { f with
            smt_enabled := p.smt_enabled
            threads_per_core := if p.smt_enabled = true then p.threads_per_core else 1 }
          let ct := if p.constant_time_ok = true then p.constant_time_result
                    else { p.constant_time_result with valid := false }
          let f := { f with
            constant_time := ct
            constant_time_supported := ct.valid && ct.aes_ni && ct.rdrand }
          let cc := if p.cache_control_ok = true then p.cache_control_result
                    else { p.cache_control_result with valid := false }
          let f := { f with
            cache_control := cc
            cache_partitioning_supported := cc.valid && (cc.cat || cc.cdp) }
          let mp := if p.memory_protection_ok = true then p.memory_protection_result
                    else { p.memory_protection_result with valid := false }
          let f := { f with
            memory_protection := mp
            memory_encryption_supported := mp.valid && mp.tme }
          let sc := if p.side_channel_ok = true then p.side_channel_result
                    else { p.side_channel_result with valid := false }
          let f := { f with
            side_channel_mitigation := sc
            side_channel_mitigations_available := sc.valid && sc.ibrs && sc.stibp }
          let f := { f with trng_available := p.trng_available }
          let f := { f with total_memory_mb := p.total_memory_mb }
          let f := { f with
            uefi_boot := p.uefi_boot
            secure_boot_enabled := p.secure_boot_enabled }
          let f := { f with probed := true }
          (true, f)

/-- Boot error codes (`boot_error_t`), as enumerated by
`boot_error_string` in src/boot/early_init.c. -/
inductive BootError where
  | none
  | cpu_detection_failed
  | cache_detection_failed
  | numa_detection_failed
  | too_few_cores
  | no_cache
  | no_numa
  | no_constant_time_support
  | no_cache_control
  | no_memory_protection
  | no_side_channel_mitigation
  | no_trng
  | smt_enabled_not_allowed
  | freq_scaling_enabled
  | secure_boot_disabled
  | warn_asymmetric_cores
  | warn_numa_disabled
  | warn_old_microcode
deriving DecidableEq

/-- Validation severities (`boot_validation_result_t`), with the C enum
values ACCEPT = 0 < WARN = 1 < HARD_FAIL = 2. -/
inductive BootValidationResult where
  | accept
  | warn
  | hard_fail
deriving DecidableEq

/-- Numeric value of the C severity enum, used by the `severity >
ctx->worst_result` comparison in the source. -/
def BootValidationResult.toNat : BootValidationResult → Nat
  | .accept => 0
  | .warn => 1
  | .hard_fail => 2

/-- Validation context (`boot_validation_context_t`): the occupied prefix of
the fixed 32-entry error array together with the worst severity seen. -/
structure BootValidationContext where
  errors : List BootError
  worst_result : BootValidationResult
deriving DecidableEq

/-- Embedding of `boot_validation_context_init` (src/boot/early_init.c:189-193). -/
def boot_validation_context_init : BootValidationContext :=
  ⟨[], .accept⟩

/-- Embedding of `boot_validation_context_add_error` (src/boot/early_init.c:195-207):
appends the error code only while fewer than 32 entries are stored —
beyond that the code is dropped — and raises `worst_result` whenever the
new severity is strictly greater (the two statements are independent: the
append never inspects `worst_result` and the severity update never inspects
the array). -/
def boot_validation_context_add_error (ctx : BootValidationContext)
    (error : BootError) (severity : BootValidationResult) :
    BootValidationContext where
  errors :=
    if ctx.errors.length < 32 then ctx.errors ++ [error] else ctx.errors
  worst_result :=
    if ctx.worst_result.toNat < severity.toNat then severity
    else ctx.worst_result

/-- One conditional check of `boot_validate`: the source statement shape
`if (cond) boot_validation_context_add_error(ctx, error, severity);`. -/
def boot_validate_check (cond : Prop) [Decidable cond] (error : BootError)
    (severity : BootValidationResult) (ctx : BootValidationContext) :
    BootValidationContext :=
  if cond then boot_validation_context_add_error ctx error severity else ctx

/-- The seven conditional checks of `boot_validate`
(src/boot/early_init.c:224-271) applied to the context in source order:
three hard-fail checks (core count, cache levels, NUMA nodes) followed by
four warning checks (constant-time support, TRNG, SMT, secure boot).
The innermost application is the first statement executed. -/
def boot_validate_checks (facts : BootFacts) (ctx : BootValidationContext) :
    BootValidationContext :=
  boot_validate_check (facts.secure_boot_enabled = false)
    .secure_boot_disabled .warn
    (boot_validate_check (facts.smt_enabled = true)
      .smt_enabled_not_allowed .warn
      (boot_validate_check (facts.trng_available = false)
        .no_trng .warn
        (boot_validate_check (facts.constant_time_supported = false)
          .no_constant_time_support .warn
          (boot_validate_check (facts.numa_nodes < 1)
            .no_numa .hard_fail
            (boot_validate_check (facts.cache_topology.level_count = 0)
              .no_cache .hard_fail
              (boot_validate_check (facts.cpu_count < 2)
                .too_few_cores .hard_fail ctx))))))

/-- Result of one `boot_validate` call: the returned severity, the (possibly
updated) fact record and the filled-in context. -/
structure BootValidateResult where
  result : BootValidationResult
  facts : BootFacts
  ctx : BootValidationContext
deriving DecidableEq

/-- Embedding of `boot_validate` (src/boot/early_init.c:209-283): re-initializes the
context; returns HARD_FAIL at once when the record is unprobed; otherwise
runs the three hard-fail checks and the four warning checks in source
order, accumulating each triggered error; sets `validated` exactly when the
worst result is not HARD_FAIL; returns the worst result. -/
def boot_validate (facts : BootFacts) : BootValidateResult :=
  if facts.probed = false then
    ⟨.hard_fail, facts,
      boot_validation_context_add_error boot_validation_context_init
        .cpu_detection_failed .hard_fail⟩
  else
    let ctx := boot_validate_checks facts boot_validation_context_init
    ⟨ctx.worst_result,
      if ctx.worst_result ≠ .hard_fail then { facts with validated := true }
      else facts,
      ctx⟩

/-- Embedding of `boot_seal` (src/boot/early_init.c:289-304): fails on an unvalidated or
already sealed record; otherwise its single state change is setting
`sealed`. -/
def boot_seal (facts : BootFacts) : Bool × BootFacts :=
  if facts.validated = false then (false, facts)
  else if facts.sealed = true then (false, facts)
  else (true, { facts with sealed := true })

/-!
Topology layer.  src/topology/topology_contract.h declares
`topology_build_cache_isolation_matrix`, `topology_seal` and
`topology_get_cache_isolation` but their implementation file is not part of
the repository snapshot; the constructions below are therefore modelled from
the spec (§3.2, §4.2), restricted to the cache-domain data the
isolation matrix depends on.
-/

/-- Pairwise cache-isolation levels (`cache_isolation_level_t`), ordered
NONE < L1 < L2 < L3 < FULL. -/
inductive CacheIsolationLevel where
  | none
  | l1
  | l2
  | l3
  | full
deriving DecidableEq

/-- Per-core geometry (`core_geometry_t`), restricted to the cache-sharing
domain identifiers the isolation matrix is computed from. -/
structure CoreGeometry where
  physical_core : Nat
  l1_domain : Nat
  l2_domain : Nat
  l3_domain : Nat
deriving DecidableEq

/-- Precomputed cache isolation matrix (`cache_isolation_matrix_t`): the
pairwise level table plus the `computed` and `sealed` flags. -/
structure CacheIsolationMatrix where
  isolation : Nat → Nat → CacheIsolationLevel
  computed : Bool
  sealed : Bool

/-- Topology state (`topology_state_t`), restricted to the parts the cache
isolation queries touch. -/
structure TopologyState where
  cores : Nat → CoreGeometry
  core_count : Nat
  cache_isolation : CacheIsolationMatrix
  probed : Bool
  validated : Bool
  sealed : Bool

/-- Modelled from the spec: the isolation level of a pair of distinct cores,
"the deepest level at which the cores' cache-domain ids differ" (§4.2) read
with the enum comments of `cache_isolation_level_t` — sharing the L1 domain
(domains are nested) gives NONE, a private L1 with a shared L2 gives L1, a
private L1/L2 with a shared L3 gives L2, and no shared domain at any level
gives FULL. -/
def cache_isolation_of (a b : CoreGeometry) : CacheIsolationLevel :=
  if a.l1_domain = b.l1_domain then .none
  else if a.l2_domain = b.l2_domain then .l1
  else if a.l3_domain = b.l3_domain then .l2
  else .full

/-- Modelled from the spec: `topology_build_cache_isolation_matrix`
(declared at src/topology/topology_contract.h:310, implementation missing
from the snapshot).  Per §4.2 it computes, for every ordered pair `(i, j)`
with `i ≤ j`, the pairwise isolation level and writes the result
symmetrically; the diagonal is FULL; the `computed` flag is set. -/
def topology_build_cache_isolation_matrix (t : TopologyState) : TopologyState :=
  { t with cache_isolation :=
      { isolation := fun i j =>
          if i = j then .full
          else if i ≤ j then cache_isolation_of (t.cores i) (t.cores j)
          else cache_isolation_of (t.cores j) (t.cores i)
        computed := true
        sealed := t.cache_isolation.sealed } }

/-- Modelled from the spec: `topology_seal` (declared at
src/topology/topology_contract.h:342, implementation missing from the
snapshot).  Per §4.2 it requires `validated` and `cache_isolation.computed`
and fixes the matrix; it changes nothing but the seal flags. -/
def topology_seal (t : TopologyState) : Bool × TopologyState :=
  if t.validated = true ∧ t.cache_isolation.computed = true then
    (true, { t with
      sealed := true
      cache_isolation := { t.cache_isolation with sealed := true } })
  else (false, t)

/-- Embedding of `topology_get_cache_isolation` (declared at
src/topology/topology_contract.h:365-369): the O(1) lookup in the
precomputed matrix. -/
def topology_get_cache_isolation (t : TopologyState) (core_a core_b : Nat) :
    CacheIsolationLevel :=
  t.cache_isolation.isolation core_a core_b

/-- Concrete provider whose probes all succeed: Intel-like identity, three
cache levels, 4 cores, 1 NUMA node, SMT off, every feature present. -/
def goodProvider : ProbeProvider where
  cpu_info_ok := true
  cpu_info_result := ⟨1, 6, 1, 0, [], true⟩
  cache_topology_ok := true
  cache_topology_result := ⟨[⟨1, 32, 64, 8, false, false, true⟩], 1⟩
  cpu_count := 4
  numa_node_count := 1
  smt_enabled := false
  threads_per_core := 1
  constant_time_ok := true
  constant_time_result := ⟨true, true, true, true, true, true⟩
  cache_control_ok := true
  cache_control_result := ⟨true, true, true, true, true, true⟩
  memory_protection_ok := true
  memory_protection_result := ⟨true, true, true, true, true, true⟩
  side_channel_ok := true
  side_channel_result := ⟨true, true, true, true, true⟩
  trng_available := true
  total_memory_mb := 8192
  uefi_boot := true
  secure_boot_enabled := true

/-- Concrete provider that reports SMT enabled while reporting a single
thread per core — exactly what `boot_probe_threads_per_core` does when
CPUID leaf 0xB is absent (src/arch/x86_64/boot_probe.c:241-253) while
`boot_probe_smt_enabled` took its HTT fallback path. -/
def smtLiarProvider : ProbeProvider :=
  { goodProvider with smt_enabled := true, threads_per_core := 1 }

/-- Concrete sealed (probed, validated) boot fact record. -/
def sealedFactsExample : BootFacts :=
  { bootFactsZero with probed := true, validated := true, sealed := true }

/-- Concrete validation context whose 32-entry error array is already full. -/
def fullValidationContext : BootValidationContext :=
  ⟨List.replicate 32 .no_trng, .accept⟩

/-!
Theorems.
-/

/-- Record update setting `validated` to the value it already holds is the
identity. -/
theorem BootFacts.set_validated_self (f : BootFacts) (h : f.validated = true) :
    { f with validated := true } = f := by
  cases f
  simp_all

/-- C4: `boot_seal` succeeds (returns `true` and sets `sealed`) exactly when
the record is validated and not yet sealed; on success the only state
change is setting `sealed`; on failure the record is untouched; a second
call on the same record fails. -/
theorem boot_seal_spec (f : BootFacts) :
    ((boot_seal f).1 = true ↔ (f.validated = true ∧ f.sealed = false))
    ∧ ((boot_seal f).1 = true → (boot_seal f).2 = { f with sealed := true })
    ∧ ((boot_seal f).1 = false → (boot_seal f).2 = f)
    ∧ ((boot_seal f).1 = true → (boot_seal (boot_seal f).2).1 = false) := by
  by_cases hv : f.validated = true <;> by_cases hs : f.sealed = true <;>
    simp_all [boot_seal]

/-- C4 witness: `boot_seal` at a concrete validated, unsealed record. -/
theorem boot_seal_spec_witness :
    (boot_seal { bootFactsZero with validated := true }).1 = true :=
  ((boot_seal_spec { bootFactsZero with validated := true }).1).2 ⟨rfl, rfl⟩

/-- The fact record returned by `boot_validate` is either untouched or has
just `validated` set. -/
theorem boot_validate_facts_cases (f : BootFacts) :
    (boot_validate f).facts = f
    ∨ (boot_validate f).facts = { f with validated := true } := by
  unfold boot_validate
  split
  · left
    rfl
  · dsimp only
    split
    · right
      rfl
    · left
      rfl

/-- When `boot_probe` returns `true` the resulting record is exactly the
input record overwritten with the provider's responses, the coerced NUMA
count, the degraded feature validity flags, the recomputed aggregate
roll-ups, and `probed` set. -/
theorem boot_probe_success_eq (f : BootFacts) (p : ProbeProvider)
    (h : (boot_probe f p).1 = true) :
    (boot_probe f p).2 =
      { f with
          probed := true
          cpu_info := p.cpu_info_result
          cache_topology := p.cache_topology_result
          cpu_count := p.cpu_count
          numa_nodes := if p.numa_node_count = 0 then 1 else p.numa_node_count
          smt_enabled := p.smt_enabled
          threads_per_core :=
            if p.smt_enabled = true then p.threads_per_core else 1
          constant_time :=
            if p.constant_time_ok = true then p.constant_time_result
            else { p.constant_time_result with valid := false }
          constant_time_supported :=
            (p.constant_time_ok && p.constant_time_result.valid)
              && p.constant_time_result.aes_ni && p.constant_time_result.rdrand
          cache_control :=
            if p.cache_control_ok = true then p.cache_control_result
            else { p.cache_control_result with valid := false }
          cache_partitioning_supported :=
            (p.cache_control_ok && p.cache_control_result.valid)
              && (p.cache_control_result.cat || p.cache_control_result.cdp)
          memory_protection :=
            if p.memory_protection_ok = true then p.memory_protection_result
            else { p.memory_protection_result with valid := false }
          memory_encryption_supported :=
            (p.memory_protection_ok && p.memory_protection_result.valid)
              && p.memory_protection_result.tme
          side_channel_mitigation :=
            if p.side_channel_ok = true then p.side_channel_result
            else { p.side_channel_result with valid := false }
          side_channel_mitigations_available :=
            (p.side_channel_ok && p.side_channel_result.valid)
              && p.side_channel_result.ibrs && p.side_channel_result.stibp
          trng_available := p.trng_available
          total_memory_mb := p.total_memory_mb
          uefi_boot := p.uefi_boot
          secure_boot_enabled := p.secure_boot_enabled } := by
  by_cases hs : f.sealed = true <;>
    by_cases h1 : p.cpu_info_ok = false <;>
    by_cases h2 : p.cache_topology_ok = false <;>
    by_cases h3 : p.cpu_count = 0 <;>
    by_cases h4 : p.constant_time_ok = true <;>
    by_cases h5 : p.cache_control_ok = true <;>
    by_cases h6 : p.memory_protection_ok = true <;>
    by_cases h7 : p.side_channel_ok = true <;>
    simp_all [boot_probe]

/-- C1 counterexample: `boot_init` applied to a sealed record mutates it
(the `memset` in src/boot/early_init.c:30 runs without any check of
`sealed`), so not every public operation leaves a sealed record
bit-identical. -/
theorem boot_init_mutates_sealed_record :
    boot_init sealedFactsExample ≠ sealedFactsExample := by decide

/-- C1 (amended): once `sealed = true` (and `validated = true`, which
`boot_seal` guarantees at sealing time), `boot_probe` and `boot_seal` fail
and leave the record bit-identical and `boot_validate` leaves the record
bit-identical; `boot_init` is the exception — it unconditionally
reinitializes the record, clearing `sealed`. -/
theorem sealed_record_immutable (f : BootFacts) (p : ProbeProvider)
    (hs : f.sealed = true) (hv : f.validated = true) :
    boot_probe f p = (false, f)
    ∧ boot_seal f = (false, f)
    ∧ (boot_validate f).facts = f
    ∧ boot_init f = bootFactsZero := by
  refine ⟨?_, ?_, ?_, rfl⟩
  · simp [boot_probe, hs]
  · simp [boot_seal, hs, hv]
  · rcases boot_validate_facts_cases f with h | h
    · exact h
    · rw [h]
      exact BootFacts.set_validated_self f hv

/-- C1 witness: `sealed_record_immutable` at the concrete sealed record and
the all-good provider. -/
theorem sealed_record_immutable_witness :
    boot_probe sealedFactsExample goodProvider = (false, sealedFactsExample)
    ∧ boot_seal sealedFactsExample = (false, sealedFactsExample)
    ∧ (boot_validate sealedFactsExample).facts = sealedFactsExample
    ∧ boot_init sealedFactsExample = bootFactsZero :=
  sealed_record_immutable sealedFactsExample goodProvider rfl rfl

/-- C3: starting from an unsealed, unprobed record, `boot_probe` returns
`false` exactly when one of the three fatal steps fails (CPU identity
probe, cache topology probe, or a zero cpu count) and then leaves `probed`
false; otherwise it returns `true` with `probed` set, and a failure of any
of the four non-fatal feature probes merely leaves that feature group
recorded with `valid = false`.  The twelve-step order is fixed in the
definition of `boot_probe` itself. -/
theorem boot_probe_fatal_and_degrade (f : BootFacts) (p : ProbeProvider)
    (hs : f.sealed = false) (hp : f.probed = false) :
    ((boot_probe f p).1 = false ↔
      (p.cpu_info_ok = false ∨ p.cache_topology_ok = false ∨ p.cpu_count = 0))
    ∧ ((boot_probe f p).1 = false → (boot_probe f p).2.probed = false)
    ∧ ((boot_probe f p).1 = true → (boot_probe f p).2.probed = true
        ∧ (p.constant_time_ok = false →
            (boot_probe f p).2.constant_time.valid = false)
        ∧ (p.cache_control_ok = false →
            (boot_probe f p).2.cache_control.valid = false)
        ∧ (p.memory_protection_ok = false →
            (boot_probe f p).2.memory_protection.valid = false)
        ∧ (p.side_channel_ok = false →
            (boot_probe f p).2.side_channel_mitigation.valid = false)) := by
  by_cases h1 : p.cpu_info_ok = false <;>
    by_cases h2 : p.cache_topology_ok = false <;>
    by_cases h3 : p.cpu_count = 0 <;>
    by_cases h4 : p.constant_time_ok = true <;>
    by_cases h5 : p.cache_control_ok = true <;>
    by_cases h6 : p.memory_protection_ok = true <;>
    by_cases h7 : p.side_channel_ok = true <;>
    simp_all [boot_probe]

/-- C3 witness: `boot_probe_fatal_and_degrade` at the zero record and the
all-good provider. -/
theorem boot_probe_fatal_and_degrade_witness :
    (boot_probe bootFactsZero goodProvider).2.probed = true :=
  ((boot_probe_fatal_and_degrade bootFactsZero goodProvider rfl rfl).2.2
    (by decide)).1

/-- C10: `boot_validate` never clears `validated` — a record entering with
`validated = true` leaves with `validated = true`, whatever severity the
call returns; `boot_probe` and `boot_seal` never change `validated`; and
`boot_init` resets it to `false`. -/
theorem validated_monotone (f : BootFacts) (p : ProbeProvider) :
    (f.validated = true → (boot_validate f).facts.validated = true)
    ∧ ((boot_probe f p).2.validated = f.validated)
    ∧ ((boot_seal f).2.validated = f.validated)
    ∧ (boot_init f).validated = false := by
  refine ⟨?_, ?_, ?_, rfl⟩
  · intro h
    rcases boot_validate_facts_cases f with hc | hc <;> rw [hc]
    exact h
  · simp only [boot_probe]
    split_ifs <;> rfl
  · simp only [boot_seal]
    split_ifs <;> rfl

/-- C10 witness: `validated_monotone` at the concrete sealed record (which
has `validated = true`) and the all-good provider. -/
theorem validated_monotone_witness :
    (boot_validate sealedFactsExample).facts.validated = true :=
  (validated_monotone sealedFactsExample goodProvider).1 rfl

/-- C6 counterexample: a provider run in which every probe succeeds but SMT
is reported enabled with one thread per core — as the x86_64 back-end
itself reports on a CPU without CPUID leaf 0xB
(src/arch/x86_64/boot_probe.c:228-252) — completes `boot_probe`
successfully with `smt_enabled = true` and `threads_per_core = 1 < 2`. -/
theorem smt_without_two_threads :
    (boot_probe bootFactsZero smtLiarProvider).1 = true
    ∧ (boot_probe bootFactsZero smtLiarProvider).2.smt_enabled = true
    ∧ ¬ 2 ≤ (boot_probe bootFactsZero smtLiarProvider).2.threads_per_core := by
  decide

/-- C6 (amended): after a successful `boot_probe` from a `boot_init`-fresh
record, `smt_enabled` equals the provider's SMT report; when it is false,
`threads_per_core` is forced to 1; when it is true, `threads_per_core` is
the provider's (unchecked) thread count, so `threads_per_core ≥ 2` holds
exactly for providers reporting at least 2. -/
theorem smt_threads_from_provider (p : ProbeProvider)
    (h : (boot_probe bootFactsZero p).1 = true) :
    ((boot_probe bootFactsZero p).2.smt_enabled = p.smt_enabled)
    ∧ (p.smt_enabled = false →
        (boot_probe bootFactsZero p).2.threads_per_core = 1)
    ∧ (p.smt_enabled = true →
        (boot_probe bootFactsZero p).2.threads_per_core = p.threads_per_core)
    ∧ (p.smt_enabled = true → 2 ≤ p.threads_per_core →
        2 ≤ (boot_probe bootFactsZero p).2.threads_per_core) := by
  rw [boot_probe_success_eq bootFactsZero p h]
  by_cases hsmt : p.smt_enabled = true <;> simp [hsmt]

/-- C6 witness: `smt_threads_from_provider` at the all-good provider, whose
SMT report is false. -/
theorem smt_threads_from_provider_witness :
    (boot_probe bootFactsZero goodProvider).2.threads_per_core = 1 :=
  (smt_threads_from_provider goodProvider (by decide)).2.1 rfl

/-- C7: `boot_probe` output is a pure function of the provider responses —
two runs from `boot_init`-initialized records whose providers answer every
probe identically produce identical results. -/
theorem boot_probe_deterministic (g1 g2 : BootFacts) (p1 p2 : ProbeProvider)
    (e1 : p1.cpu_info_ok = p2.cpu_info_ok)
    (e2 : p1.cpu_info_result = p2.cpu_info_result)
    (e3 : p1.cache_topology_ok = p2.cache_topology_ok)
    (e4 : p1.cache_topology_result = p2.cache_topology_result)
    (e5 : p1.cpu_count = p2.cpu_count)
    (e6 : p1.numa_node_count = p2.numa_node_count)
    (e7 : p1.smt_enabled = p2.smt_enabled)
    (e8 : p1.threads_per_core = p2.threads_per_core)
    (e9 : p1.constant_time_ok = p2.constant_time_ok)
    (e10 : p1.constant_time_result = p2.constant_time_result)
    (e11 : p1.cache_control_ok = p2.cache_control_ok)
    (e12 : p1.cache_control_result = p2.cache_control_result)
    (e13 : p1.memory_protection_ok = p2.memory_protection_ok)
    (e14 : p1.memory_protection_result = p2.memory_protection_result)
    (e15 : p1.side_channel_ok = p2.side_channel_ok)
    (e16 : p1.side_channel_result = p2.side_channel_result)
    (e17 : p1.trng_available = p2.trng_available)
    (e18 : p1.total_memory_mb = p2.total_memory_mb)
    (e19 : p1.uefi_boot = p2.uefi_boot)
    (e20 : p1.secure_boot_enabled = p2.secure_boot_enabled) :
    boot_probe (boot_init g1) p1 = boot_probe (boot_init g2) p2 := by
  have hp : p1 = p2 := by
    cases p1
    cases p2
    simp_all
  rw [hp]
  rfl

/-- C7 witness: `boot_probe_deterministic` at two distinct starting records
and the all-good provider on both sides. -/
theorem boot_probe_deterministic_witness :
    boot_probe (boot_init sealedFactsExample) goodProvider =
      boot_probe (boot_init bootFactsZero) goodProvider :=
  boot_probe_deterministic sealedFactsExample bootFactsZero
    goodProvider goodProvider rfl rfl rfl rfl rfl rfl rfl rfl rfl rfl
    rfl rfl rfl rfl rfl rfl rfl rfl rfl rfl

/-- A check whose condition is false leaves the context untouched. -/
theorem boot_validate_check_false (cond : Prop) [Decidable cond]
    (e : BootError) (s : BootValidationResult) (ctx : BootValidationContext)
    (h : ¬ cond) : boot_validate_check cond e s ctx = ctx :=
  if_neg h

/-- A check can only add its own error code to the context. -/
theorem boot_validate_check_not_mem {e' : BootError} (cond : Prop)
    [Decidable cond] (e : BootError) (s : BootValidationResult)
    (ctx : BootValidationContext) (h1 : e' ∉ ctx.errors) (h2 : e' ≠ e) :
    e' ∉ (boot_validate_check cond e s ctx).errors := by
  unfold boot_validate_check boot_validation_context_add_error
  split_ifs <;> simp_all

/-- C9: any record produced by a successful `boot_probe` has at least one
NUMA node (a provider count of 0 is coerced to 1 at
src/boot/early_init.c:84-87), and consequently `boot_validate` on such a
record never records the `NO_NUMA` hard-fail error. -/
theorem probe_numa_at_least_one (f : BootFacts) (p : ProbeProvider)
    (h : (boot_probe f p).1 = true) :
    1 ≤ (boot_probe f p).2.numa_nodes
    ∧ BootError.no_numa ∉ (boot_validate (boot_probe f p).2).ctx.errors := by
  rw [boot_probe_success_eq f p h]
  have hnuma : 1 ≤ (if p.numa_node_count = 0 then 1 else p.numa_node_count) := by
    by_cases hn : p.numa_node_count = 0
    · simp [hn]
    · simp only [if_neg hn]
      omega
  refine ⟨hnuma, ?_⟩
  unfold boot_validate
  rw [if_neg (by simp)]
  dsimp only
  unfold boot_validate_checks
  apply boot_validate_check_not_mem _ _ _ _ ?_ (by decide)
  apply boot_validate_check_not_mem _ _ _ _ ?_ (by decide)
  apply boot_validate_check_not_mem _ _ _ _ ?_ (by decide)
  apply boot_validate_check_not_mem _ _ _ _ ?_ (by decide)
  rw [boot_validate_check_false _ _ _ _ (by simp only []; omega)]
  apply boot_validate_check_not_mem _ _ _ _ ?_ (by decide)
  apply boot_validate_check_not_mem _ _ _ _ ?_ (by decide)
  simp [boot_validation_context_init]

/-- C9 witness: `probe_numa_at_least_one` at the zero record and the
all-good provider. -/
theorem probe_numa_at_least_one_witness :
    1 ≤ (boot_probe bootFactsZero goodProvider).2.numa_nodes :=
  (probe_numa_at_least_one bootFactsZero goodProvider (by decide)).1

/-- A hard-fail check raises the worst severity to HARD_FAIL exactly when
its condition holds. -/
theorem boot_validate_check_worst_hard (cond : Prop) [Decidable cond]
    (e : BootError) (ctx : BootValidationContext) :
    (boot_validate_check cond e .hard_fail ctx).worst_result =
      if cond then .hard_fail else ctx.worst_result := by
  unfold boot_validate_check boot_validation_context_add_error
  by_cases hc : cond
  · simp only [if_pos hc]
    cases h : ctx.worst_result <;> simp [h, BootValidationResult.toNat]
  · simp [hc]

/-- A warning check raises the worst severity to WARN when its condition
holds, except that an already recorded HARD_FAIL is kept. -/
theorem boot_validate_check_worst_warn (cond : Prop) [Decidable cond]
    (e : BootError) (ctx : BootValidationContext) :
    (boot_validate_check cond e .warn ctx).worst_result =
      if cond then
        (if ctx.worst_result = .hard_fail then .hard_fail else .warn)
      else ctx.worst_result := by
  unfold boot_validate_check boot_validation_context_add_error
  by_cases hc : cond
  · simp only [if_pos hc]
    cases h : ctx.worst_result <;> simp [h, BootValidationResult.toNat]
  · simp [hc]

/-- Worst severity accumulated by the seven checks of `boot_validate` from a
fresh context: HARD_FAIL when any of the three hard-fail conditions holds,
otherwise WARN when any of the four warning conditions holds, otherwise
ACCEPT. -/
theorem boot_validate_checks_worst (f : BootFacts) :
    (boot_validate_checks f boot_validation_context_init).worst_result =
      if f.cpu_count < 2 ∨ f.cache_topology.level_count = 0
          ∨ f.numa_nodes < 1 then .hard_fail
      else if f.constant_time_supported = false ∨ f.trng_available = false
          ∨ f.smt_enabled = true ∨ f.secure_boot_enabled = false then .warn
      else .accept := by
  unfold boot_validate_checks
  rw [boot_validate_check_worst_warn, boot_validate_check_worst_warn,
    boot_validate_check_worst_warn, boot_validate_check_worst_warn,
    boot_validate_check_worst_hard, boot_validate_check_worst_hard,
    boot_validate_check_worst_hard]
  by_cases h1 : f.cpu_count < 2 <;>
    by_cases h2 : f.cache_topology.level_count = 0 <;>
    by_cases h3 : f.numa_nodes < 1 <;>
    by_cases h4 : f.constant_time_supported = false <;>
    by_cases h5 : f.trng_available = false <;>
    by_cases h6 : f.smt_enabled = true <;>
    by_cases h7 : f.secure_boot_enabled = false <;>
    simp [h1, h2, h3, h4, h5, h6, h7, boot_validation_context_init]

/-- C2: `boot_validate` returns HARD_FAIL exactly when the record is
unprobed, has fewer than 2 cores, has no detected cache level, or has
fewer than 1 NUMA node; it returns WARN exactly when none of those hold
but constant-time support, the TRNG or secure boot is missing or SMT is
enabled; it returns ACCEPT otherwise — the worst severity among the
triggered checks; and the call sets `validated` exactly when no hard-fail
condition triggered, leaving the record untouched otherwise. -/
theorem boot_validate_spec (f : BootFacts) :
    ((boot_validate f).result = .hard_fail ↔
      (f.probed = false ∨ f.cpu_count < 2 ∨ f.cache_topology.level_count = 0
        ∨ f.numa_nodes < 1))
    ∧ ((boot_validate f).result = .warn ↔
      (f.probed = true
        ∧ ¬ (f.cpu_count < 2 ∨ f.cache_topology.level_count = 0
              ∨ f.numa_nodes < 1)
        ∧ (f.constant_time_supported = false ∨ f.trng_available = false
            ∨ f.smt_enabled = true ∨ f.secure_boot_enabled = false)))
    ∧ ((boot_validate f).result = .accept ↔
      (f.probed = true
        ∧ ¬ (f.cpu_count < 2 ∨ f.cache_topology.level_count = 0
              ∨ f.numa_nodes < 1)
        ∧ ¬ (f.constant_time_supported = false ∨ f.trng_available = false
              ∨ f.smt_enabled = true ∨ f.secure_boot_enabled = false)))
    ∧ ((boot_validate f).result ≠ .hard_fail →
        (boot_validate f).facts = { f with validated := true })
    ∧ ((boot_validate f).result = .hard_fail → (boot_validate f).facts = f) := by
  unfold boot_validate
  by_cases hp : f.probed = false
  · rw [if_pos hp]
    simp [hp]
  · rw [if_neg hp]
    have hp' : f.probed = true := by
      revert hp
      cases f.probed <;> simp
    dsimp only
    rw [boot_validate_checks_worst]
    by_cases hhard : (f.cpu_count < 2 ∨ f.cache_topology.level_count = 0
        ∨ f.numa_nodes < 1)
    · rw [if_pos hhard]
      refine ⟨iff_of_true rfl (Or.inr hhard), iff_of_false (by simp) ?_,
        iff_of_false (by simp) ?_, ?_, ?_⟩
      · rintro ⟨-, hnh, -⟩
        exact hnh hhard
      · rintro ⟨-, hnh, -⟩
        exact hnh hhard
      · intro h
        exact absurd rfl h
      · intro _
        rw [if_neg (by simp)]
    · by_cases hwarn : (f.constant_time_supported = false
          ∨ f.trng_available = false ∨ f.smt_enabled = true
          ∨ f.secure_boot_enabled = false)
      · rw [if_neg hhard, if_pos hwarn]
        refine ⟨iff_of_false (by simp) ?_,
          iff_of_true rfl ⟨hp', hhard, hwarn⟩,
          iff_of_false (by simp) ?_, ?_, ?_⟩
        · rintro (hpf | hh)
          · rw [hp'] at hpf
            exact Bool.noConfusion hpf
          · exact hhard hh
        · rintro ⟨-, -, hnw⟩
          exact hnw hwarn
        · intro _
          rw [if_pos (by simp)]
        · intro h
          exact absurd h (by simp)
      · rw [if_neg hhard, if_neg hwarn]
        refine ⟨iff_of_false (by simp) ?_, iff_of_false (by simp) ?_,
          iff_of_true rfl ⟨hp', hhard, hwarn⟩, ?_, ?_⟩
        · rintro (hpf | hh)
          · rw [hp'] at hpf
            exact Bool.noConfusion hpf
          · exact hhard hh
        · rintro ⟨-, -, hw⟩
          exact hwarn hw
        · intro _
          rw [if_pos (by simp)]
        · intro h
          exact absurd h (by simp)

/-- C2 witness: `boot_validate_spec` at the zero record, which is unprobed
and therefore hard-fails. -/
theorem boot_validate_spec_witness :
    (boot_validate bootFactsZero).result = .hard_fail :=
  (boot_validate_spec bootFactsZero).1.mpr (Or.inl rfl)

/-- C5 counterexample: adding an error to a context whose 32-entry array is
already full leaves the error list bit-identical — the new code is
silently dropped and no overflow marker of any kind is recorded. -/
theorem add_error_overflow_dropped :
    (boot_validation_context_add_error fullValidationContext
      .no_cache .hard_fail).errors = fullValidationContext.errors
    ∧ fullValidationContext.errors.length = 32 := by decide

/-- Each conditional check grows the error list by at most one entry. -/
theorem boot_validate_check_length (cond : Prop) [Decidable cond]
    (e : BootError) (s : BootValidationResult)
    (ctx : BootValidationContext) :
    (boot_validate_check cond e s ctx).errors.length
      ≤ ctx.errors.length + 1 := by
  unfold boot_validate_check boot_validation_context_add_error
  by_cases hc : cond
  · simp only [if_pos hc]
    by_cases hl : ctx.errors.length < 32
    · simp [hl]
    · simp [hl]
  · simp [hc]

/-- The seven checks together grow the error list by at most seven
entries. -/
theorem boot_validate_checks_length (f : BootFacts)
    (ctx : BootValidationContext) :
    (boot_validate_checks f ctx).errors.length ≤ ctx.errors.length + 7 := by
  unfold boot_validate_checks
  set c1 := boot_validate_check (f.cpu_count < 2)
    .too_few_cores .hard_fail ctx with hc1
  set c2 := boot_validate_check (f.cache_topology.level_count = 0)
    .no_cache .hard_fail c1 with hc2
  set c3 := boot_validate_check (f.numa_nodes < 1)
    .no_numa .hard_fail c2 with hc3
  set c4 := boot_validate_check (f.constant_time_supported = false)
    .no_constant_time_support .warn c3 with hc4
  set c5 := boot_validate_check (f.trng_available = false)
    .no_trng .warn c4 with hc5
  set c6 := boot_validate_check (f.smt_enabled = true)
    .smt_enabled_not_allowed .warn c5 with hc6
  have l1 : c1.errors.length ≤ ctx.errors.length + 1 := by
    rw [hc1]
    exact boot_validate_check_length _ _ _ _
  have l2 : c2.errors.length ≤ c1.errors.length + 1 := by
    rw [hc2]
    exact boot_validate_check_length _ _ _ _
  have l3 : c3.errors.length ≤ c2.errors.length + 1 := by
    rw [hc3]
    exact boot_validate_check_length _ _ _ _
  have l4 : c4.errors.length ≤ c3.errors.length + 1 := by
    rw [hc4]
    exact boot_validate_check_length _ _ _ _
  have l5 : c5.errors.length ≤ c4.errors.length + 1 := by
    rw [hc5]
    exact boot_validate_check_length _ _ _ _
  have l6 : c6.errors.length ≤ c5.errors.length + 1 := by
    rw [hc6]
    exact boot_validate_check_length _ _ _ _
  have l7 := boot_validate_check_length (f.secure_boot_enabled = false)
    BootError.secure_boot_disabled .warn c6
  omega

/-- A full `boot_validate` run stores at most 7 errors, far below the
32-entry capacity. -/
theorem boot_validate_ctx_small (f : BootFacts) :
    (boot_validate f).ctx.errors.length ≤ 7 := by
  unfold boot_validate
  by_cases hp : f.probed = false
  · rw [if_pos hp]
    show (boot_validation_context_add_error boot_validation_context_init
      .cpu_detection_failed .hard_fail).errors.length ≤ 7
    decide
  · rw [if_neg hp]
    dsimp only
    have h := boot_validate_checks_length f boot_validation_context_init
    simpa [boot_validation_context_init] using h

/-- C5 (amended): boot-stage validation is a total function that accumulates
each triggered error into the context, whose error list is bounded by 32
entries; while the list is below capacity every added code is appended, at
capacity further codes are silently dropped (only the worst severity is
still updated); inside `boot_validate` at most 7 errors can ever trigger,
so the bound is never reached and no triggered error is lost. -/
theorem validation_accumulates_bounded (ctx : BootValidationContext)
    (e : BootError) (s : BootValidationResult) (f : BootFacts) :
    (ctx.errors.length < 32 →
      (boot_validation_context_add_error ctx e s).errors
        = ctx.errors ++ [e])
    ∧ (32 ≤ ctx.errors.length →
      (boot_validation_context_add_error ctx e s).errors = ctx.errors)
    ∧ (ctx.errors.length ≤ 32 →
      (boot_validation_context_add_error ctx e s).errors.length ≤ 32)
    ∧ (boot_validate f).ctx.errors.length ≤ 7 := by
  refine ⟨?_, ?_, ?_, boot_validate_ctx_small f⟩
  · intro h
    simp [boot_validation_context_add_error, h]
  · intro h
    simp [boot_validation_context_add_error, Nat.not_lt.mpr h]
  · intro h
    by_cases hl : ctx.errors.length < 32
    · simp only [boot_validation_context_add_error, if_pos hl,
        List.length_append, List.length_cons, List.length_nil]
      omega
    · simp only [boot_validation_context_add_error, if_neg hl]
      exact h

/-- C5 witness: `validation_accumulates_bounded` at a fresh context, which is
below capacity, so the added code is appended. -/
theorem validation_accumulates_bounded_witness :
    (boot_validation_context_add_error boot_validation_context_init
      .no_trng .warn).errors
      = boot_validation_context_init.errors ++ [.no_trng] :=
  (validation_accumulates_bounded boot_validation_context_init
    .no_trng .warn bootFactsZero).1 (by decide)

/-- Off-diagonal entries of the built isolation matrix are symmetric in the
pair of indices. -/
theorem built_isolation_symm (c : Nat → CoreGeometry) (i j : Nat) :
    (if i = j then CacheIsolationLevel.full
     else if i ≤ j then cache_isolation_of (c i) (c j)
     else cache_isolation_of (c j) (c i)) =
    (if j = i then CacheIsolationLevel.full
     else if j ≤ i then cache_isolation_of (c j) (c i)
     else cache_isolation_of (c i) (c j)) := by
  rcases Nat.lt_trichotomy i j with h | h | h
  · rw [if_neg (by omega), if_pos (by omega), if_neg (by omega),
      if_neg (by omega)]
  · subst h
    simp
  · rw [if_neg (by omega), if_neg (by omega), if_neg (by omega),
      if_pos (by omega)]

/-- C8: after the cache isolation matrix is built and the topology sealed,
`topology_get_cache_isolation` is symmetric in its two core ids and the
diagonal is FULL. -/
theorem cache_isolation_symmetric (t : TopologyState) (i j : Nat) :
    topology_get_cache_isolation
        (topology_seal (topology_build_cache_isolation_matrix t)).2 i j =
      topology_get_cache_isolation
        (topology_seal (topology_build_cache_isolation_matrix t)).2 j i
    ∧ topology_get_cache_isolation
        (topology_seal (topology_build_cache_isolation_matrix t)).2 i i =
      CacheIsolationLevel.full := by
  constructor
  · simp only [topology_get_cache_isolation, topology_seal,
      topology_build_cache_isolation_matrix]
    split_ifs <;> exact built_isolation_symm t.cores i j
  · simp only [topology_get_cache_isolation, topology_seal,
      topology_build_cache_isolation_matrix]
    split_ifs <;> simp
